import Mathlib

/-!
Verification of the chunked streaming aggregation pipeline of the
PYTHON-FRAMEWORKS repository (CORD-19 metadata cleaning / analysis /
sampled exploration).

The development shallowly embeds the row-level semantics of

  * `data_cleaning.py` / `clean_data_chunked`      (chunked cleaning + CSV sink),
  * `analysis_and_viz.py` / `analyze_and_visualize_chunked`
                                                    (streaming aggregation),
  * `app.py` / `load_sampled_data` and the filter section of the
    Streamlit page                                  (sampling loader, filter/view layer).

Records are embedded as structures of their used fields; pandas DataFrames
are embedded as lists of such records (plus, where the code tests
`'col' in df.columns`, explicit column-presence flags); pandas `Series` /
`Counter` aggregates are embedded by their content (a `Multiset` of
observations for the additive counters, an insertion-ordered association
list for `collections.Counter`).
-/

namespace CordPipeline

/-! ### Character-run scanning

`re.findall(r'\b[a-zA-Z]{3,}\b', text)` and Python's `str.split()` both
decompose a string into the maximal runs of characters satisfying a
predicate.  `runsBy p l` returns the maximal runs of characters satisfying
`p`, in order, skipping characters that do not satisfy `p`.
-/

/-- Flush the (reversed) run accumulated so far: no run yet means nothing
to emit. -/
def flushRun (acc : List Char) : List (List Char) :=
  if acc.isEmpty then [] else [acc.reverse]

/-- Worker for `runsBy`: `acc` holds the current run, reversed. -/
def runsByGo (p : Char → Bool) : List Char → List Char → List (List Char)
  | acc, [] => flushRun acc
  | acc, c :: cs =>
    if p c then runsByGo p (c :: acc) cs
    else flushRun acc ++ runsByGo p [] cs

/-- The maximal runs of consecutive characters satisfying `p`, in order. -/
def runsBy (p : Char → Bool) (l : List Char) : List (List Char) :=
  runsByGo p [] l

/-- Python regex word characters (`\w` over ASCII): letters, digits and
underscore.  `\b` in `analysis_and_viz.py`'s token regex is a boundary
between a word character and a non-word character. -/
def isWordChar (c : Char) : Bool :=
  c.isAlpha || c.isDigit || c == '_'

/-- `analysis_and_viz.py` line 50:
`re.findall(r'\b[a-zA-Z]{3,}\b', titles_text_chunk.lower())`.
A match of this regex is a maximal word-character run that consists
entirely of letters and has length at least 3 (the `\b` anchors forbid a
letter run that touches a digit or an underscore).  The text is
lower-cased first. -/
def tokenize (s : String) : List String :=
  ((runsBy isWordChar (s.data.map Char.toLower)).filter
    (fun r => decide (3 ≤ r.length) && r.all Char.isAlpha)).map
    (fun r => String.mk r)

/-- Python `str.split()` (no separator): the maximal non-whitespace runs.
`data_cleaning.py` line 48 takes the length of this list. -/
def countTokens (s : String) : Nat :=
  (runsBy (fun c => !c.isWhitespace) s.data).length

/-- `' '.join(titles)` from `analysis_and_viz.py` line 48. -/
def joinSp : List String → String
  | [] => ""
  | [t] => t
  | t :: ts => t ++ " " ++ joinSp ts

/-! ### Chunked reading

`pd.read_csv(file, chunksize=n)` yields the rows of the file in successive
batches of `n` rows (the last batch may be shorter).  We embed the file as
the list of its data rows and the chunk iterator as `chunksOf n`.
The fuel argument makes the definition structurally recursive (the fuel
`l.length` always suffices when `0 < n`).
-/

/-- Worker for `chunksOf`, structurally recursive on the fuel. -/
def chunksOfFuel (n : Nat) : Nat → List α → List (List α)
  | _, [] => []
  | 0, l => [l]
  | fuel + 1, l => l.take n :: chunksOfFuel n fuel (l.drop n)

/-- Split a list into successive chunks of `n` elements (last chunk may be
shorter); the embedding of `pd.read_csv(..., chunksize=n)`. -/
def chunksOf (n : Nat) (l : List α) : List (List α) :=
  chunksOfFuel n l.length l

/-! ### The record cleaner (`data_cleaning.py`)

A raw row of the input CSV, restricted to the fields the pipeline touches
(`title`, `abstract`, `publish_time`, `source_x`) plus `journal`, one of
the configured low-value columns dropped by step 5.  Each field holds the
cell's text; pandas reads an empty cell (or one of its NA markers, which
we represent uniformly by the empty cell) as NaN, embedded below by
`toOpt`. -/
structure RawRow where
  title : String
  abstract : String
  publish_time : String
  source_x : String
  journal : String
deriving DecidableEq

/-- Pandas CSV reading of one cell: an empty cell is NaN (missing). -/
def toOpt (s : String) : Option String :=
  if s = "" then none else some s

/-- Models `pd.to_datetime(s, errors='coerce').year`: calendar parsing is
abstracted to reading a leading 4-digit year; any string that does not
start with four digits (including the empty / NaN cell) fails to parse and
yields a missing value (NaT, hence a missing `year`). -/
def parseYear (s : String) : Option Int :=
  if 4 ≤ s.data.length && (s.data.take 4).all Char.isDigit then
    some ((s.data.take 4).foldl (fun n c => 10 * n + ((c.toNat : Int) - 48)) 0)
  else none

/-- A row of the cleaned artifact: the input fields minus the dropped
`journal` column, plus the derived `year` and `title_word_count`
(`data_cleaning.py` steps 2-5). -/
structure CleanedRow where
  title : String
  abstract : String
  year : Option Int
  source_x : Option String
  title_word_count : Nat
deriving DecidableEq

/-- The per-row part of the cleaning transform (`data_cleaning.py` lines
38-48): fill missing `abstract` with `''`, parse `publish_time` and
extract `year`, derive `title_word_count` from `title`. -/
def cleanRow (r : RawRow) : CleanedRow :=
  { title := r.title
    abstract := (toOpt r.abstract).getD ""
    year := parseYear r.publish_time
    source_x := toOpt r.source_x
    title_word_count := countTokens r.title }

/-- The cleaning transform of one chunk (`data_cleaning.py` lines 30-66):
`dropna(subset=['title'])` removes the rows whose `title` cell is missing,
then the per-row derivations run; `journal` is dropped by not appearing in
`CleanedRow`. -/
def cleanChunk (chunk : List RawRow) : List CleanedRow :=
  (chunk.filter (fun r => (toOpt r.title).isSome)).map cleanRow

/-- The cleaned rows produced by the whole chunked run, in order (the
data content of the output artifact, independent of CSV text
formatting). -/
def clean_data_rows (rows : List RawRow) (chunksize : Nat) : List CleanedRow :=
  ((chunksOf chunksize rows).map cleanChunk).flatten

/-! ### The CSV sink (`data_cleaning.py` lines 70-80)

`chunk_df.to_csv(output_file, mode='a', index=False, header=write_header)`
appends the chunk's rows, preceded by the field header exactly when
`write_header` is true.  One subtlety of the real code is embedded
explicitly: `chunk_df['year'] = chunk_df['publish_time'].dt.year` produces
an integer (int32) column when every date in the chunk parsed, and a float
(float64) column as soon as the chunk contains one NaT, so the very same
year renders as `2020` in an all-parsed chunk and as `2020.0` in a chunk
with a parse failure.  All other written columns render per-row,
independently of the chunk. -/

/-- One line of the output CSV: the single header line, or a data row
given by its cells (in column order `title, abstract, publish_time,
source_x, year, title_word_count`). -/
inductive CsvLine
  | header
  | row (cells : List String)
deriving DecidableEq

/-- Rendering of the `year` cell: missing renders as the empty cell;
a present year renders as `2020.0` when the chunk's column was inferred
as float (some date in the chunk failed to parse) and as `2020`
otherwise. -/
def renderYearCell (floatFmt : Bool) : Option Int → String
  | none => ""
  | some y => if floatFmt then toString y ++ ".0" else toString y

/-- Rendering of the normalized `publish_time` (datetime) cell; NaT
renders empty.  The calendar part is abstracted along with `parseYear`. -/
def renderDateCell : Option Int → String
  | none => ""
  | some y => toString y

/-- One cleaned row rendered as a CSV data line. -/
def renderRow (floatFmt : Bool) (c : CleanedRow) : CsvLine :=
  .row [c.title, c.abstract, renderDateCell c.year, (c.source_x).getD "",
        renderYearCell floatFmt c.year, toString c.title_word_count]

/-- One cleaned chunk rendered as CSV data lines: the `year` column is
float-formatted iff some row of this chunk has a missing year. -/
def renderChunk (cleaned : List CleanedRow) : List CsvLine :=
  cleaned.map (renderRow (cleaned.any (fun c => c.year.isNone)))

/-- The sink's state: the `first_chunk` flag and the lines written so
far. -/
structure SinkState where
  firstChunk : Bool
  lines : List CsvLine
deriving DecidableEq

/-- One write call (`data_cleaning.py` lines 70-80): a non-empty cleaned
chunk is appended, preceded by the header iff `first_chunk` is still set,
and clears the flag; an empty cleaned chunk writes nothing and leaves the
state unchanged. -/
def writeStep (st : SinkState) (cleaned : List CleanedRow) : SinkState :=
  if 0 < cleaned.length then
    { firstChunk := false
      lines := st.lines ++ (if st.firstChunk then [CsvLine.header] else [])
               ++ renderChunk cleaned }
  else st

/-- The sink after writing a sequence of cleaned chunks, starting from an
empty artifact with the `first_chunk` flag set. -/
def sinkRun (batches : List (List CleanedRow)) : SinkState :=
  batches.foldl writeStep ⟨true, []⟩

/-- `clean_data_chunked(input, output, chunksize)` at the level of the
bytes of the output artifact: read in chunks, clean each chunk, append it
to the sink. -/
def clean_data_chunked (rows : List RawRow) (chunksize : Nat) : List CsvLine :=
  (sinkRun ((chunksOf chunksize rows).map cleanChunk)).lines

/-! ### The streaming aggregator (`analysis_and_viz.py` lines 17-57)

The analysis run re-reads the cleaned artifact in chunks; a row of that
artifact is embedded with the four fields the aggregation touches, each
optional (a missing value is NaN in the frame). -/

/-- One record of the cleaned artifact as read back for analysis. -/
structure AnalysisRow where
  title : Option String
  source_x : Option String
  year : Option Int
  title_word_count : Option Nat
deriving DecidableEq

/-- The running aggregate state (`analysis_and_viz.py` lines 18-21):

* `year_counts` embeds `year_counts_agg`, the per-year counter built with
  `Series.value_counts` and `Series.add(..., fill_value=0)`.  A counter
  Series is embedded by its content — the multiset of counted
  observations (its `count` function is exactly the Series' year→count
  mapping).
* `source_counts` likewise embeds `source_counts_agg`.
* `all_words` embeds the `collections.Counter` `all_words`: an
  insertion-ordered token→frequency association list (Counter preserves
  first-insertion order, which `pd.Series(all_words)` then inherits).
* `twc_list` embeds `title_word_counts_list`. -/
structure AggState where
  year_counts : Multiset Int
  source_counts : Multiset String
  all_words : List (String × Nat)
  twc_list : List Nat

/-- `Counter` incrementing one word: bump an existing key in place,
append a new key at the end. -/
def counterBump (m : List (String × Nat)) (w : String) : List (String × Nat) :=
  match m with
  | [] => [(w, 1)]
  | (k, c) :: rest => if k = w then (k, c + 1) :: rest else (k, c) :: counterBump rest w

/-- `Counter.update(words)`: fold `counterBump` over the word list. -/
def counterUpdate (m : List (String × Nat)) (ws : List String) : List (String × Nat) :=
  ws.foldl counterBump m

/-- The empty aggregate state (`analysis_and_viz.py` lines 18-21). -/
def initAgg : AggState :=
  { year_counts := 0, source_counts := 0, all_words := [], twc_list := [] }

/-- One iteration of the analysis loop (`analysis_and_viz.py` lines
34-57) folding one chunk into the aggregate state:

* `year_counts_agg = year_counts_agg.add(chunk['year'].value_counts(), fill_value=0)`
  — `value_counts` drops NaN, so the chunk contributes the multiset of
  its non-missing years;
* the same for `source_x`;
* `all_words.update(re.findall(..., ' '.join(chunk['title'].dropna()).lower()))`;
* `title_word_counts_list.extend(chunk['title_word_count'].dropna().tolist())`. -/
def stepAgg (s : AggState) (chunk : List AnalysisRow) : AggState :=
  { year_counts := s.year_counts + (chunk.filterMap (fun r => r.year) : Multiset Int)
    source_counts :=
      s.source_counts + (chunk.filterMap (fun r => r.source_x) : Multiset String)
    all_words :=
      counterUpdate s.all_words (tokenize (joinSp (chunk.filterMap (fun r => r.title))))
    twc_list := s.twc_list ++ chunk.filterMap (fun r => r.title_word_count) }

/-- The aggregate state after folding a sequence of chunks, starting
empty: the aggregation core of `analyze_and_visualize_chunked`. -/
def analyzeAgg (batches : List (List AnalysisRow)) : AggState :=
  batches.foldl stepAgg initAgg

/-- Finalization of the token view (`analysis_and_viz.py` line 64):
`pd.Series(all_words).head(50)` — the first 50 entries of the Counter in
its (insertion) order. -/
def top_words_final (words : List (String × Nat)) : List (String × Nat) :=
  words.take 50

/-- The ordering the claim asserts of a finalized "top N" view: each
entry's count is at least the next entry's (descending counts). -/
def descendingByCount : List (String × Nat) → Bool
  | [] => true
  | [_] => true
  | p :: q :: r => decide (q.2 ≤ p.2) && descendingByCount (q :: r)

/-! ### The sampling loader (`app.py` lines 18-107, `load_sampled_data`)

The loader never inspects row contents, so it is embedded generically in
the row type.  `DataFrame.sample` draws a seeded pseudo-random subset
without replacement; only its size (`round(frac*len)` for `frac=`,
exactly `n` for `n=`) and its seed-determinism matter to the claims, so
the draw itself is embedded as a seeded rotation followed by a prefix. -/

/-- The sampling fraction is a nonnegative rational `num / den`
(`SAMPLE_FRAC = 0.05` is `1 / 20`; the claims also use `0.10 = 1 / 10`).
`pyRound num den len` is Python 3's `round((num/den) * len)` — round half
to even (banker's rounding) — as `DataFrame.sample(frac=...)` uses for
its sample size. -/
def pyRound (num den len : ℕ) : ℕ :=
  let q := num * len / den
  let r := num * len % den
  if 2 * r < den then q
  else if den < 2 * r then q + 1
  else if q % 2 = 0 then q else q + 1

/-- Python `int((num/den) * len)` for a nonnegative fraction:
truncation, i.e. the floor of `num * len / den`. -/
def pyInt (num den len : ℕ) : ℕ :=
  num * len / den

/-- Embedding of `df.sample(n=k, random_state=seed)` (and, with
`k = (pyRound (frac * len)).toNat`, of `df.sample(frac=..., random_state=seed)`):
a deterministic seed-dependent selection of `min k len` rows. -/
def pdSample (seed : Nat) (k : Nat) (l : List α) : List α :=
  (l.rotate seed).take k

/-- The concatenation of the per-chunk samples (`app.py` lines 40-60):
chunk `i` (counted from 1) is sampled with fraction `num / den` at seed
`seed + i`, and the sampled chunks are concatenated. -/
def concatSample (num den seed chunksize : Nat) (rows : List α) : List α :=
  (((chunksOf chunksize rows).enum).map
    (fun p => pdSample (seed + p.1 + 1) (pyRound num den p.2.length) p.2)).flatten

/-- `load_sampled_data` (`app.py` lines 40-69): read in chunks of 10,000
(`chunksize` here), sample each chunk at fraction `num / den` with a
per-chunk seed, concatenate; if no chunks were read return the empty
frame; finally re-sample the concatenation down to
`int(len(data) * fraction)` rows with the base seed — unless that size is
0, in which case the concatenated sample is returned unchanged. -/
def load_sampled_data (num den seed chunksize : Nat) (rows : List α) : List α :=
  if (chunksOf chunksize rows).isEmpty then []
  else
    let data := concatSample num den seed chunksize rows
    let n := pyInt num den data.length
    if 0 < n then pdSample seed n data else data

/-! ### The filter/view layer (`app.py` lines 127-167)

The filter section runs on the loaded sample only when it is non-empty.
Column presence (`'year' in df.columns`, `'source_x' in df.columns`) is a
property of the frame, embedded as explicit flags. -/

/-- The in-memory sample: column-presence flags plus the rows. -/
structure Sample where
  hasYear : Bool
  hasSource : Bool
  rows : List AnalysisRow
deriving DecidableEq

/-- The year-range filter (`app.py` lines 131-147).
`valid_years = df['year'].dropna()` raises a `KeyError` when the sample
has no `year` column — there is no guard on this access.  Otherwise: no
valid years, or all years equal, leaves the sample unfiltered; else the
rows inside the inclusive range are kept (a NaN year compares false on
both bounds and is dropped). -/
def yearFilter (df : Sample) (yr : Int × Int) : Except String (List AnalysisRow) :=
  if df.hasYear = false then Except.error "KeyError: year"
  else
    match df.rows.filterMap (fun r => r.year) with
    | [] => Except.ok df.rows
    | y :: ys =>
      if ys.foldl min y = ys.foldl max y then Except.ok df.rows
      else Except.ok (df.rows.filter (fun r =>
        match r.year with
        | some v => decide (yr.1 ≤ v) && decide (v ≤ yr.2)
        | none => false))

/-- The source filter (`app.py` lines 150-167): only applied when the
sample has a `source_x` column and the user selected a non-empty source
set (`isin` drops NaN sources); with no `source_x` column the sample
passes through unchanged and an informational notice is shown. -/
def sourceFilter (hasSource : Bool) (sel : List String) (rows : List AnalysisRow) :
    List AnalysisRow :=
  if hasSource = true ∧ sel ≠ [] then
    rows.filter (fun r =>
      match r.source_x with
      | some s => sel.contains s
      | none => false)
  else rows

/-- The whole filter section: skipped entirely on an empty sample
(`if not df.empty`), else the year filter followed by the source
filter. -/
def filterView (df : Sample) (yr : Int × Int) (sel : List String) :
    Except String (List AnalysisRow) :=
  if df.rows.isEmpty then Except.ok []
  else (yearFilter df yr).map (sourceFilter df.hasSource sel)

/-! ### Concrete inputs used by counterexamples and witnesses -/

/-- A raw row whose `publish_time` parses (title "a", date 2020). -/
def c1row1 : RawRow := ⟨"a", "", "2020-01-01", "", ""⟩

/-- A raw row whose `publish_time` does not parse (title "b"). -/
def c1row2 : RawRow := ⟨"b", "", "bad", "", ""⟩

/-- A raw row with a missing (empty-cell) title. -/
def noTitleRow : RawRow := ⟨"", "an abstract", "2021-05-05", "PMC", "J"⟩

/-- Analysis rows whose titles make the token counter's insertion order
disagree with descending frequency: "bbb" is more frequent but "aaa" is
encountered first. -/
def c3rows : List AnalysisRow :=
  [⟨some "aaa bbb", none, none, none⟩, ⟨some "bbb", none, none, none⟩]

/-- Two analysis rows used to witness the merge law on a concrete
partition. -/
def aRow1 : AnalysisRow := ⟨some "covid spread model", some "PMC", some 2020, some 3⟩

/-- Second concrete analysis row. -/
def aRow2 : AnalysisRow := ⟨some "spread of cats", none, none, some 3⟩

/-- A non-empty sample without a `year` column. -/
def c9sample : Sample := ⟨false, true, [⟨some "t", some "src", some 2020, some 1⟩]⟩

/-- A non-empty sample with a `year` column and no `source_x` column. -/
def c9sample2 : Sample := ⟨true, false, [⟨some "t", none, some 2020, some 1⟩]⟩

/-! ## Lemmas: chunked reading -/

theorem chunksOfFuel_flatten {α : Type _} (n : Nat) (hn : 0 < n) :
    ∀ (fuel : Nat) (l : List α), l.length ≤ fuel →
      (chunksOfFuel n fuel l).flatten = l := by
  intro fuel
  induction fuel with
  | zero =>
    intro l hl
    have : l = [] := List.eq_nil_of_length_eq_zero (Nat.le_zero.mp hl)
    subst this
    rfl
  | succ fuel ih =>
    intro l hl
    match l with
    | [] => rfl
    | x :: xs =>
      have hstep : chunksOfFuel n (fuel + 1) (x :: xs)
          = (x :: xs).take n :: chunksOfFuel n fuel ((x :: xs).drop n) := rfl
      rw [hstep, List.flatten_cons, ih ((x :: xs).drop n) ?_, List.take_append_drop]
      rw [List.length_drop]
      simp only [List.length_cons] at hl ⊢
      omega

/-- With a positive window size, the chunks cover the input exactly once,
in order. -/
theorem chunksOf_flatten {α : Type _} {n : Nat} (hn : 0 < n) (l : List α) :
    (chunksOf n l).flatten = l :=
  chunksOfFuel_flatten n hn l.length l le_rfl

/-! ## Lemmas: the record cleaner -/

theorem cleanChunk_append (a b : List RawRow) :
    cleanChunk (a ++ b) = cleanChunk a ++ cleanChunk b := by
  simp [cleanChunk, List.filter_append]

theorem flatten_map_cleanChunk (chunks : List (List RawRow)) :
    (chunks.map cleanChunk).flatten = cleanChunk chunks.flatten := by
  induction chunks with
  | nil => rfl
  | cons c cs ih =>
    simp only [List.map_cons, List.flatten_cons, ih, cleanChunk_append]

/-- The cleaned data content is the single-pass clean of the whole input:
the window size does not enter. -/
theorem clean_data_rows_eq (rows : List RawRow) {W : Nat} (hW : 0 < W) :
    clean_data_rows rows W = cleanChunk rows := by
  unfold clean_data_rows
  rw [flatten_map_cleanChunk, chunksOf_flatten hW]

theorem toOpt_isSome_iff (s : String) : (toOpt s).isSome = true ↔ s ≠ "" := by
  unfold toOpt
  split <;> simp_all

/-! ## Claim C1 -/

/-- Claim C1, counterexample: the claim "for any two window sizes the
cleaned artifacts are byte-identical" is false.  On a two-row input whose
first date parses and whose second does not, window size 2 puts both rows
in one chunk, whose `year` column is float-typed because of the one NaT,
so the first row's year renders `2020.0`; window size 1 isolates the first
row in an all-parsed chunk, rendering `2020`. -/
theorem c1_counterexample :
    clean_data_chunked [c1row1, c1row2] 1 ≠ clean_data_chunked [c1row1, c1row2] 2 := by
  decide

/-- Claim C1 (amended): for any two positive window sizes, the chunked
cleaning run produces the same cleaned rows — the same records, with the
same field values, in the same order (and hence the same single header);
only the textual formatting of the numeric `year` column may differ
between window sizes. -/
theorem c1_amended (rows : List RawRow) (W W' : Nat) (hW : 0 < W) (hW' : 0 < W') :
    clean_data_rows rows W = clean_data_rows rows W' := by
  rw [clean_data_rows_eq rows hW, clean_data_rows_eq rows hW']

/-- Witness for `c1_amended` at a concrete input and window sizes 1, 2. -/
theorem c1_amended_witness :
    0 < 1 ∧ 0 < 2 ∧
      clean_data_rows [c1row1, c1row2, noTitleRow] 1
        = clean_data_rows [c1row1, c1row2, noTitleRow] 2 :=
  ⟨by decide, by decide,
    c1_amended [c1row1, c1row2, noTitleRow] 1 2 (by decide) (by decide)⟩

/-! ## Claim C5 -/

/-- Claim C5: for every input record, the record appears in the cleaned
artifact iff its `title` cell is present in the input — pandas reads an
empty `title` cell as NaN, so `dropna(subset=['title'])` removes exactly
the records whose `title` is missing or empty, and keeps all others. -/
theorem c5_title_filter (rows : List RawRow) (W : Nat) (r : RawRow)
    (hW : 0 < W) (hr : r ∈ rows) :
    cleanRow r ∈ clean_data_rows rows W ↔ r.title ≠ "" := by
  rw [clean_data_rows_eq rows hW]
  constructor
  · intro h
    rcases List.mem_map.mp h with ⟨r', hr', he⟩
    rcases List.mem_filter.mp hr' with ⟨_, ht⟩
    have htitle : r'.title = r.title := congrArg CleanedRow.title he
    rw [← htitle]
    exact (toOpt_isSome_iff r'.title).mp ht
  · intro h
    exact List.mem_map.mpr
      ⟨r, List.mem_filter.mpr ⟨hr, (toOpt_isSome_iff r.title).mpr h⟩, rfl⟩

/-- Witness for `c5_title_filter`: a kept record (non-empty title) and the
iff instantiated concretely. -/
theorem c5_title_filter_witness :
    0 < 2 ∧ c1row1 ∈ [c1row1, noTitleRow] ∧
      (cleanRow c1row1 ∈ clean_data_rows [c1row1, noTitleRow] 2 ↔ c1row1.title ≠ "") :=
  ⟨by decide, by decide,
    c5_title_filter [c1row1, noTitleRow] 2 c1row1 (by decide) (by decide)⟩

/-! ## Claim C6 -/

/-- Claim C6: every row written to the cleaned artifact has a defined
`title_word_count` equal to the number of whitespace-delimited tokens of
its `title` value (the cleaner sets it from the same `title` it writes,
and the field is total). -/
theorem c6_title_word_count (rows : List RawRow) (W : Nat) (c : CleanedRow)
    (hW : 0 < W) (hc : c ∈ clean_data_rows rows W) :
    c.title_word_count = countTokens c.title := by
  rw [clean_data_rows_eq rows hW] at hc
  rcases List.mem_map.mp hc with ⟨r, _, he⟩
  rw [← he]
  rfl

/-- Witness for `c6_title_word_count` on a concrete cleaned row. -/
theorem c6_title_word_count_witness :
    0 < 1 ∧ cleanRow c1row1 ∈ clean_data_rows [c1row1, c1row2] 1 ∧
      (cleanRow c1row1).title_word_count = countTokens (cleanRow c1row1).title :=
  ⟨by decide, by decide,
    c6_title_word_count [c1row1, c1row2] 1 (cleanRow c1row1) (by decide) (by decide)⟩

/-! ## Lemmas: the tokenizer -/

theorem runsByGo_nil (p : Char → Bool) (acc : List Char) :
    runsByGo p acc [] = flushRun acc := rfl

theorem runsByGo_cons (p : Char → Bool) (acc : List Char) (c : Char) (cs : List Char) :
    runsByGo p acc (c :: cs) =
      if p c then runsByGo p (c :: acc) cs
      else flushRun acc ++ runsByGo p [] cs := rfl

/-- Scanning across a separator that fails the predicate splits the run
scan. -/
theorem runsByGo_append_sep (p : Char → Bool) (sep : Char) (hsep : p sep = false)
    (xs : List Char) :
    ∀ (acc ys : List Char),
      runsByGo p acc (xs ++ sep :: ys) = runsByGo p acc xs ++ runsByGo p [] ys := by
  induction xs with
  | nil =>
    intro acc ys
    rw [List.nil_append, runsByGo_cons, hsep, runsByGo_nil]
    simp
  | cons c xs ih =>
    intro acc ys
    rw [List.cons_append, runsByGo_cons, runsByGo_cons]
    by_cases hc : p c
    · rw [hc]
      simp only [if_true]
      exact ih (c :: acc) ys
    · rw [Bool.not_eq_true] at hc
      rw [hc]
      simp only [Bool.false_eq_true, if_false]
      rw [ih [] ys, List.append_assoc]

theorem runsBy_append_sep (p : Char → Bool) (sep : Char) (hsep : p sep = false)
    (xs ys : List Char) :
    runsBy p (xs ++ sep :: ys) = runsBy p xs ++ runsBy p ys :=
  runsByGo_append_sep p sep hsep xs [] ys

theorem tokenize_empty : tokenize "" = [] := rfl

/-- Tokenizing across a single joining space splits into the two sides'
tokens: the space is not a word character, so no token crosses it. -/
theorem tokenize_append_space (x y : String) :
    tokenize (x ++ " " ++ y) = tokenize x ++ tokenize y := by
  unfold tokenize
  rw [String.data_append, String.data_append]
  have hsp : (" " : String).data = [' '] := rfl
  rw [hsp, List.append_assoc, List.singleton_append, List.map_append, List.map_cons]
  have hlower : Char.toLower ' ' = ' ' := rfl
  rw [hlower,
    runsBy_append_sep isWordChar ' ' (by decide) (x.data.map Char.toLower)
      (y.data.map Char.toLower),
    List.filter_append, List.map_append]

/-- Tokenizing the space-join of a concatenation of title lists splits
batchwise. -/
theorem tokenize_joinSp (a b : List String) :
    tokenize (joinSp (a ++ b)) = tokenize (joinSp a) ++ tokenize (joinSp b) := by
  induction a with
  | nil => rw [List.nil_append]; rfl
  | cons t a ih =>
    cases a with
    | nil =>
      cases b with
      | nil => simp [joinSp, tokenize_empty]
      | cons b0 bs =>
        show tokenize (t ++ " " ++ joinSp (b0 :: bs))
          = tokenize (joinSp [t]) ++ tokenize (joinSp (b0 :: bs))
        rw [tokenize_append_space]
        rfl
    | cons t2 a2 =>
      show tokenize (t ++ " " ++ joinSp ((t2 :: a2) ++ b))
        = tokenize (t ++ " " ++ joinSp (t2 :: a2)) ++ tokenize (joinSp b)
      rw [tokenize_append_space, tokenize_append_space, ih, List.append_assoc]

/-! ## Lemmas: the streaming aggregator -/

theorem counterUpdate_append (m : List (String × Nat)) (w1 w2 : List String) :
    counterUpdate m (w1 ++ w2) = counterUpdate (counterUpdate m w1) w2 := by
  simp [counterUpdate, List.foldl_append]

theorem stepAgg_nil (s : AggState) : stepAgg s [] = s := by
  obtain ⟨y, src, w, t⟩ := s
  simp [stepAgg, counterUpdate, joinSp, tokenize_empty]

/-- Folding two consecutive batches equals folding their concatenation:
the additive counter merges, the Counter update and the list extension all
distribute over batch concatenation. -/
theorem stepAgg_append (s : AggState) (a b : List AnalysisRow) :
    stepAgg (stepAgg s a) b = stepAgg s (a ++ b) := by
  obtain ⟨y, src, w, t⟩ := s
  simp only [stepAgg, List.filterMap_append, tokenize_joinSp, counterUpdate_append,
    ← Multiset.coe_add, AggState.mk.injEq, List.append_assoc, add_assoc]

theorem foldl_stepAgg_flatten (batches : List (List AnalysisRow)) :
    ∀ s : AggState, batches.foldl stepAgg s = stepAgg s batches.flatten := by
  induction batches with
  | nil => intro s; simp [stepAgg_nil]
  | cons b bs ih =>
    intro s
    rw [List.foldl_cons, List.flatten_cons, ih (stepAgg s b), stepAgg_append]

/-! ## Claim C2 -/

/-- Claim C2: folding a record stream batch by batch into the aggregate
state (year counts, source counts, token-frequency table,
title-word-count collection) yields exactly the final state of processing
the whole stream as one batch, for every partition into ordered batches —
the aggregate does not depend on the batch boundaries. -/
theorem c2_merge_law (stream : List AnalysisRow) (batches : List (List AnalysisRow))
    (h : batches.flatten = stream) :
    analyzeAgg batches = stepAgg initAgg stream := by
  rw [analyzeAgg, foldl_stepAgg_flatten, h]

/-- Witness for `c2_merge_law`: a concrete 3-batch partition (with an
empty middle batch) of a 2-record stream. -/
theorem c2_merge_law_witness :
    ([[aRow1], [], [aRow2]] : List (List AnalysisRow)).flatten = [aRow1, aRow2] ∧
      analyzeAgg [[aRow1], [], [aRow2]] = stepAgg initAgg [aRow1, aRow2] :=
  ⟨rfl, c2_merge_law [aRow1, aRow2] [[aRow1], [], [aRow2]] rfl⟩

/-! ## Claim C7 -/

/-- The claim's description of the tokenizer, stated from its words for
comparison: "the maximal alphabetic tokens of length ≥ 3" of the
lower-cased text — maximal runs of letters, keeping those of length at
least 3. -/
def specAlphaTokens (s : String) : List String :=
  ((runsBy Char.isAlpha (s.data.map Char.toLower)).filter
    (fun r => decide (3 ≤ r.length))).map (fun r => String.mk r)

/-- Claim C7, counterexample: on the title "covid19" the maximal
alphabetic run "covid" has length ≥ 3, so the claim says it is emitted —
but the code's regex `\b[a-zA-Z]{3,}\b` requires a word boundary on both
sides, and the boundary between "covid" and "19" is letter-to-digit, so
the code emits no token at all. -/
theorem c7_counterexample :
    tokenize "covid19" = [] ∧ specAlphaTokens "covid19" = ["covid"] := by
  decide

/-- Claim C7 (amended): every emitted token is alphabetic with length
≥ 3 (tokens containing digits or punctuation, or shorter than 3, never
appear), but the emitted tokens are the maximal *word-character* runs
that consist purely of letters — an alphabetic run adjacent to a digit or
underscore is not emitted; on the two example titles the token table is
exactly {cats: 2, and: 1, dogs: 2, are: 1} (case-folded). -/
theorem c7_amended (s t : String) (ht : t ∈ tokenize s) :
    (3 ≤ t.length ∧ t.data.all Char.isAlpha = true) ∧
      counterUpdate [] (tokenize (joinSp ["Cats And Dogs", "dogs are cats"]))
        = [("cats", 2), ("and", 1), ("dogs", 2), ("are", 1)] := by
  refine ⟨?_, by decide⟩
  rcases List.mem_map.mp ht with ⟨r, hr, he⟩
  rcases List.mem_filter.mp hr with ⟨-, hp⟩
  rw [Bool.and_eq_true] at hp
  obtain ⟨h1, h2⟩ := hp
  subst he
  exact ⟨of_decide_eq_true h1, h2⟩

/-- Witness for `c7_amended` at the token "cats" of the first example
title. -/
theorem c7_amended_witness :
    "cats" ∈ tokenize "Cats And Dogs" ∧
      ((3 ≤ ("cats" : String).length ∧ ("cats" : String).data.all Char.isAlpha = true) ∧
        counterUpdate [] (tokenize (joinSp ["Cats And Dogs", "dogs are cats"]))
          = [("cats", 2), ("and", 1), ("dogs", 2), ("are", 1)]) :=
  ⟨by decide, c7_amended "Cats And Dogs" "cats" (by decide)⟩

/-! ## Claim C3 -/

/-- Claim C3, evaluation at a failing input: the finalized "top tokens"
view `pd.Series(all_words).head(50)` is the first 50 tokens in the
Counter's insertion (first-encounter) order, not in descending-frequency
order — on titles ["aaa bbb", "bbb"] it returns [aaa: 1, bbb: 2], which
is not sorted by descending count. -/
theorem c3_top_words_eval :
    top_words_final ((analyzeAgg [c3rows]).all_words) = [("aaa", 1), ("bbb", 2)] ∧
      descendingByCount (top_words_final ((analyzeAgg [c3rows]).all_words)) = false := by
  decide

/-! ## Claim C4 -/

set_option maxRecDepth 20000 in
/-- Claim C4, evaluation at the failing input: on a 1,000-row artifact
with fraction 0.10 and seed 42 (window 10,000), the loader returns 10
rows, not a count close to 100 — the final re-sample size is
`int(len(concatenated_sample) * fraction)`, i.e. fraction² of the
artifact, because `fraction` is applied to the already-sampled data. -/
theorem c4_sample_size_eval :
    (load_sampled_data 1 10 42 10000 (List.range 1000)).length = 10 := by
  decide

/-! ## Lemmas: the CSV sink -/

theorem writeStep_nil (st : SinkState) : writeStep st [] = st := rfl

theorem foldl_writeStep_false (batches : List (List CleanedRow)) :
    ∀ st : SinkState, st.firstChunk = false →
      batches.foldl writeStep st
        = ⟨false, st.lines ++ (batches.map renderChunk).flatten⟩ := by
  induction batches with
  | nil =>
    intro st hst
    obtain ⟨fc, lines⟩ := st
    simp only at hst
    subst hst
    simp
  | cons b bs ih =>
    intro st hst
    rw [List.foldl_cons]
    by_cases hb : 0 < b.length
    · have hw : writeStep st b = ⟨false, st.lines ++ renderChunk b⟩ := by
        simp [writeStep, hb, hst]
      rw [hw, ih _ rfl]
      simp [List.append_assoc]
    · have hbe : b = [] := by
        cases b with
        | nil => rfl
        | cons x xs => simp at hb
      subst hbe
      rw [writeStep_nil, ih st hst]
      simp [renderChunk]

/-- Closed form of a whole sink run: nothing is written while every batch
is empty; otherwise the output is the single header followed by the data
lines of the batches in order. -/
theorem sinkRun_closed (batches : List (List CleanedRow)) :
    (sinkRun batches).lines =
      if batches.any (fun b => !b.isEmpty) then
        CsvLine.header :: (batches.map renderChunk).flatten
      else [] := by
  unfold sinkRun
  induction batches with
  | nil => simp
  | cons b bs ih =>
    rw [List.foldl_cons]
    by_cases hb : b.isEmpty
    · have hbe : b = [] := List.isEmpty_iff.mp hb
      subst hbe
      rw [writeStep_nil]
      rw [ih]
      simp [renderChunk]
    · have hb' : 0 < b.length := by
        cases b with
        | nil => simp at hb
        | cons x xs => simp
      have hw : writeStep ⟨true, []⟩ b = ⟨false, CsvLine.header :: renderChunk b⟩ := by
        simp [writeStep, hb']
      rw [hw, foldl_writeStep_false bs ⟨false, CsvLine.header :: renderChunk b⟩ rfl]
      simp [hb]

/-- Every line rendered from a cleaned chunk is a data row, never the
header. -/
theorem header_notin_renderChunks (batches : List (List CleanedRow)) :
    CsvLine.header ∉ (batches.map renderChunk).flatten := by
  intro h
  rcases List.mem_flatten.mp h with ⟨l, hl, hmem⟩
  rcases List.mem_map.mp hl with ⟨b, -, rfl⟩
  unfold renderChunk at hmem
  rcases List.mem_map.mp hmem with ⟨c, -, habs⟩
  simp [renderRow] at habs

/-! ## Claim C8 -/

/-- Claim C8: in one cleaning run, the sink writes the header exactly
once — with the first non-empty cleaned batch, before all data rows;
every later non-empty batch appends only data rows; a write of an empty
cleaned batch is a no-op; and the header has been written iff at least
one non-empty batch has been written. -/
theorem c8_header_once (batches : List (List CleanedRow)) :
    (∀ st, writeStep st [] = st) ∧
    (sinkRun batches).lines =
      (if batches.any (fun b => !b.isEmpty) then
        CsvLine.header :: (batches.map renderChunk).flatten
      else []) ∧
    (sinkRun batches).lines.count CsvLine.header =
      (if batches.any (fun b => !b.isEmpty) then 1 else 0) ∧
    (sinkRun batches).lines.head? =
      (if batches.any (fun b => !b.isEmpty) then some CsvLine.header else none) := by
  refine ⟨fun st => writeStep_nil st, sinkRun_closed batches, ?_, ?_⟩
  · rw [sinkRun_closed batches]
    by_cases h : batches.any (fun b => !b.isEmpty)
    · simp [h, List.count_cons, List.count_eq_zero.mpr (header_notin_renderChunks batches)]
    · simp [h]
  · rw [sinkRun_closed batches]
    by_cases h : batches.any (fun b => !b.isEmpty)
    · simp [h]
    · simp [h]

/-! ## Claim C9 -/

/-- Claim C9, counterexample: on a non-empty sample lacking the `year`
column, the year-range predicate is not a pass-through — the filter
section raises a `KeyError` (the unguarded `df['year']` at `app.py` line
132) instead of returning the sample unchanged. -/
theorem c9_counterexample :
    filterView c9sample (2020, 2020) [] = Except.error "KeyError: year" ∧
      filterView c9sample (2020, 2020) [] ≠ Except.ok c9sample.rows := by
  refine ⟨rfl, ?_⟩
  intro h
  rw [show filterView c9sample (2020, 2020) [] = Except.error "KeyError: year" from rfl]
    at h
  exact Except.noConfusion h

/-- Claim C9 (amended): a source predicate over a sample lacking the
`source_x` column is a pass-through — the filter result equals the year
step alone, whatever sources are selected, and no error is raised
(provided the `year` column is present); a sample lacking the `year`
column instead makes the view layer raise a `KeyError` rather than pass
through. -/
theorem c9_amended (df : Sample) (yr : Int × Int) (sel : List String)
    (hY : df.hasYear = true) (hS : df.hasSource = false) :
    filterView df yr sel = yearFilter df yr ∧
      ∃ out, filterView df yr sel = Except.ok out := by
  have hyear : ∃ out, yearFilter df yr = Except.ok out := by
    unfold yearFilter
    rw [hY, if_neg (by simp)]
    split
    · exact ⟨df.rows, rfl⟩
    · split
      · exact ⟨df.rows, rfl⟩
      · exact ⟨_, rfl⟩
  obtain ⟨out, hout⟩ := hyear
  by_cases hemp : df.rows.isEmpty
  · have hrows : df.rows = [] := List.isEmpty_iff.mp hemp
    have hfv : filterView df yr sel = Except.ok [] := by
      simp [filterView, hemp]
    have hyf : yearFilter df yr = Except.ok [] := by
      simp [yearFilter, hY, hrows]
    rw [hfv, hyf]
    exact ⟨rfl, ⟨[], rfl⟩⟩
  · have hfv : filterView df yr sel
        = (yearFilter df yr).map (sourceFilter df.hasSource sel) := by
      simp [filterView, hemp]
    have hpass : sourceFilter df.hasSource sel out = out := by
      simp [sourceFilter, hS]
    rw [hfv, hout]
    exact ⟨by simp [Except.map, hpass], ⟨out, by simp [Except.map, hpass]⟩⟩

/-- Witness for `c9_amended` on a concrete sample with a `year` column
and no `source_x` column. -/
theorem c9_amended_witness :
    c9sample2.hasYear = true ∧ c9sample2.hasSource = false ∧
      (filterView c9sample2 (2019, 2021) ["x"] = yearFilter c9sample2 (2019, 2021) ∧
        ∃ out, filterView c9sample2 (2019, 2021) ["x"] = Except.ok out) :=
  ⟨rfl, rfl, c9_amended c9sample2 (2019, 2021) ["x"] rfl rfl⟩

/-! ## Claim C10 -/

/-- Claim C10: when the final re-sample size
`int(len(concatenated_sample) * fraction)` is 0, the re-sampling step is
skipped and the concatenated per-window sample is returned unchanged; in
particular the loader's result is non-empty whenever per-window sampling
yielded at least one row. -/
theorem c10_small_resample {α : Type _} (num den seed chunksize : Nat)
    (rows : List α)
    (hne : concatSample num den seed chunksize rows ≠ []) :
    (pyInt num den (concatSample num den seed chunksize rows).length = 0 →
      load_sampled_data num den seed chunksize rows
        = concatSample num den seed chunksize rows) ∧
    load_sampled_data num den seed chunksize rows ≠ [] := by
  have hchunks : (chunksOf chunksize rows).isEmpty = false := by
    rcases hc : chunksOf chunksize rows with _ | ⟨b, bs⟩
    · exact absurd (by unfold concatSample; rw [hc]; rfl) hne
    · rfl
  unfold load_sampled_data
  rw [hchunks]
  constructor
  · intro h0
    simp [h0]
  · by_cases h0 : 0 < pyInt num den (concatSample num den seed chunksize rows).length
    · simp only [Bool.false_eq_true, if_false, h0, if_true]
      apply List.ne_nil_of_length_pos
      have hdl : 0 < (concatSample num den seed chunksize rows).length :=
        List.length_pos.mpr hne
      rw [pdSample, List.length_take, List.length_rotate]
      omega
    · simp only [Bool.false_eq_true, if_false, h0]
      exact hne

/-- Witness for `c10_small_resample`: a 50-row artifact at fraction 0.10
— the concatenated per-window sample has 5 rows, the final re-sample
size `int(5 * 0.10)` is 0, and the loader returns the 5 rows unchanged
(in particular a non-empty result). -/
theorem c10_small_resample_witness :
    concatSample 1 10 42 10000 (List.range 50) ≠ [] ∧
      ((pyInt 1 10 (concatSample 1 10 42 10000 (List.range 50)).length = 0 →
        load_sampled_data 1 10 42 10000 (List.range 50)
          = concatSample 1 10 42 10000 (List.range 50)) ∧
        load_sampled_data 1 10 42 10000 (List.range 50) ≠ []) :=
  ⟨by decide, c10_small_resample 1 10 42 10000 (List.range 50) (by decide)⟩

end CordPipeline
